import Mathlib

set_option maxHeartbeats 1000000

/-!
Verification of the TodoList app core, shallowly embedded from
`src/App.tsx`, `src/components/TodoItem.tsx` and
`src/services/geminiService.ts`.

The React state of `App` is modelled as `AppState` (the `todos` array, the
`inputText` field and the transient `error` banner).  Each event handler of
`App.tsx` becomes a pure state-transformer.  The asynchronous handler
`handleGenerateSubtasks` is split at its single `await` point into a
synchronous prefix (`generateBegin`) and the two continuations
(`generateSuccess` for the code after the `await`, `generateFailure` for the
`catch` block).  External effects (`crypto.randomUUID`, `JSON.parse`,
`localStorage`, the Gemini network call) are passed in as parameters, since
they are platform collaborators, not code of this repository.
-/

/-- `Subtask` record from `src/types.ts`. -/
structure Subtask where
  id : String
  text : String
  completed : Bool
deriving DecidableEq

/-- `Todo` record from `src/types.ts`.  The TypeScript field
`isGenerating?: boolean` is optional; `undefined` is modelled as `false`
(both are falsy wherever the code branches on the flag). -/
structure Todo where
  id : String
  text : String
  completed : Bool
  isExpanded : Bool
  subtasks : List Subtask
  isGenerating : Bool
deriving DecidableEq

/-- The pieces of React state owned by `App` (`src/App.tsx` lines 8-21) that
the handlers read or write: the todo list, the controlled input text and the
dismissible error banner.  The `filter` state only affects rendering. -/
structure AppState where
  todos : List Todo
  inputText : String
  error : Option String
deriving DecidableEq

/-- The `useState` initializer for `todos` (`src/App.tsx` lines 8-18):
`saved`, the stored value under the gemini-todos key, is `Option String` (`null`
when absent, and the empty string is falsy in the `if (saved)` test);
`parse` models `JSON.parse`, with `none` standing for a thrown parse
exception, which the `catch` turns into `[]`. -/
def initialTodos (saved : Option String) (parse : String → Option (List Todo)) : List Todo :=
  match saved with
  | none => []
  | some s =>
    if s = "" then []
    else
      match parse s with
      | some v => v
      | none => []

/-- JavaScript `String.prototype.trim`: strip whitespace from both ends.
Written structurally on the character list so that it evaluates inside the
kernel (the built-in `String.trim` is defined by well-founded recursion on
byte positions and does not reduce). -/
def jsTrim (s : String) : String :=
  String.mk (((s.data.dropWhile Char.isWhitespace).reverse.dropWhile Char.isWhitespace).reverse)

/-- `handleAddTodo` (`src/App.tsx` lines 29-43).  `freshId` is the value
returned by `crypto.randomUUID()`.  When the trimmed input is empty the
handler returns early, changing nothing; otherwise the new todo is consed
onto the front and the input is cleared. -/
def handleAddTodo (freshId : String) (s : AppState) : AppState :=
  if jsTrim s.inputText = "" then s
  else
    { s with
      todos := { id := freshId, text := jsTrim s.inputText, completed := false,
                 isExpanded := false, subtasks := [], isGenerating := false } :: s.todos,
      inputText := "" }

/-- The per-todo function mapped over the list by `handleToggleTodo`
(`src/App.tsx` lines 45-59): on the matching id, flip `completed`; if the
new value is `true` also mark every subtask completed, otherwise leave the
subtasks as they are. -/
def toggleTodoOne (id : String) (todo : Todo) : Todo :=
  if todo.id = id then
    let newCompleted := !todo.completed
    { todo with
      completed := newCompleted,
      subtasks :=
        if newCompleted then todo.subtasks.map (fun st => { st with completed := true })
        else todo.subtasks }
  else todo

/-- `handleToggleTodo` (`src/App.tsx` lines 45-59). -/
def handleToggleTodo (id : String) (s : AppState) : AppState :=
  { s with todos := s.todos.map (toggleTodoOne id) }

/-- `handleDeleteTodo` (`src/App.tsx` lines 61-63). -/
def handleDeleteTodo (id : String) (s : AppState) : AppState :=
  { s with todos := s.todos.filter (fun t => !decide (t.id = id)) }

/-- The per-todo function mapped over the list by `handleToggleSubtask`
(`src/App.tsx` lines 65-82): on the matching todo id, flip the matching
subtask and then recompute the parent `completed` flag as
`allSubComplete && newSubtasks.length > 0` — unconditionally, whether or
not any subtask actually matched. -/
def toggleSubtaskOne (todoId subtaskId : String) (todo : Todo) : Todo :=
  if todo.id = todoId then
    let newSubtasks :=
      todo.subtasks.map (fun st =>
        if st.id = subtaskId then { st with completed := !st.completed } else st)
    let allSubComplete := newSubtasks.all (fun st => st.completed)
    { todo with
      subtasks := newSubtasks,
      completed := allSubComplete && decide (0 < newSubtasks.length) }
  else todo

/-- `handleToggleSubtask` (`src/App.tsx` lines 65-82). -/
def handleToggleSubtask (todoId subtaskId : String) (s : AppState) : AppState :=
  { s with todos := s.todos.map (toggleSubtaskOne todoId subtaskId) }

/-- `handleClearCompleted` (`src/App.tsx` lines 119-121). -/
def handleClearCompleted (s : AppState) : AppState :=
  { s with todos := s.todos.filter (fun t => !t.completed) }

/-- Synchronous prefix of `handleGenerateSubtasks` (`src/App.tsx` lines
88-92), up to the `await generateSubtasks(text)`: optimistically set
`isGenerating` on the matching todo and clear the error banner.  The `Bool`
in the result records whether control reaches the service call; the body
has no guard before the `try` block, so it is always `true` — one request
is issued per invocation, unconditionally. -/
def generateBegin (id : String) (s : AppState) : AppState × Bool :=
  ({ s with
     todos := s.todos.map (fun t => if t.id = id then { t with isGenerating := true } else t),
     error := none },
   true)

/-- Construction of the fresh `Subtask` values from the returned texts
(`src/App.tsx` lines 96-100); `freshIds` are the `crypto.randomUUID()`
results, one per text. -/
def mkSubtasks (texts : List String) (freshIds : List String) : List Subtask :=
  (texts.zip freshIds).map (fun p => { id := p.2, text := p.1, completed := false })

/-- Success continuation of `handleGenerateSubtasks` (`src/App.tsx` lines
102-110), run after the `await` resolves: on the matching id, clear
`isGenerating`, set `isExpanded` and replace the subtasks wholesale. -/
def generateSuccess (id : String) (newSubtasks : List Subtask) (s : AppState) : AppState :=
  { s with
    todos := s.todos.map (fun t =>
      if t.id = id then
        { t with isGenerating := false, isExpanded := true, subtasks := newSubtasks }
      else t) }

/-- Failure continuation of `handleGenerateSubtasks` — the `catch` block
(`src/App.tsx` lines 112-116): set the error banner and clear
`isGenerating` on the matching id. -/
def generateFailure (id : String) (s : AppState) : AppState :=
  { s with
    error := some "Failed to generate subtasks. Please try again or check your API key.",
    todos := s.todos.map (fun t => if t.id = id then { t with isGenerating := false } else t) }

/-- Shallow model of a `JSON.parse` result as far as
`src/services/geminiService.ts` inspects it: `Array.isArray` distinguishes
an array (of strings, per the response schema) from any other parsed value. -/
inductive Json where
  | arr (elems : List String)
  | nonArray
deriving DecidableEq

/-- Outcome of one decomposition attempt as observed by the caller of
`generateSubtasks`: the promise resolves with a list of strings, or
rejects. -/
inductive ServiceOutcome where
  | success (subtaskTexts : List String)
  | failure
deriving DecidableEq

/-- `generateSubtasks` from `src/services/geminiService.ts` lines 11-47.
`apiKey` models the API_KEY environment variable, defaulted to the empty
string; without a key the function
returns the three mock texts.  `response` models the awaited
`ai.models.generateContent` call: `Except.error` is a thrown network error
(re-thrown by the `catch`, hence `failure`); `Except.ok` carries
`response.text`, with `none` for `undefined`.  A falsy text (`undefined` or
`""`) yields `success []`; `parse` models `JSON.parse`, `none` standing for
a thrown parse exception (re-thrown, hence `failure`); a parsed non-array
also yields `success []`. -/
def generateSubtasks (apiKey : String) (taskText : String)
    (response : Except Unit (Option String)) (parse : String → Option Json) :
    ServiceOutcome :=
  if apiKey = "" then
    .success ["Research " ++ taskText, "Draft outline for " ++ taskText,
              "Review and finalize " ++ taskText]
  else
    match response with
    | .error _ => .failure
    | .ok responseText =>
      match responseText with
      | none => .success []
      | some t =>
        if t = "" then .success []
        else
          match parse t with
          | none => .failure
          | some (.arr xs) => .success xs
          | some .nonArray => .success []

/-- One complete, uninterleaved invocation of `handleGenerateSubtasks`
(`src/App.tsx` lines 88-117): the synchronous prefix, then the continuation
selected by the service outcome. -/
def runGenerateSubtasks (id : String) (outcome : ServiceOutcome)
    (freshIds : List String) (s : AppState) : AppState :=
  match outcome with
  | .success texts => generateSuccess id (mkSubtasks texts freshIds) (generateBegin id s).1
  | .failure => generateFailure id (generateBegin id s).1

/-! ## Helper lemmas -/

/-- A `map` whose function fixes every element of the list is the identity. -/
theorem map_eq_self_of_mem {α : Type} {l : List α} {f : α → α}
    (h : ∀ a ∈ l, f a = a) : l.map f = l := by
  induction l with
  | nil => rfl
  | cons x xs ih =>
    simp only [List.map_cons]
    rw [h x (List.mem_cons_self x xs), ih (fun a ha => h a (List.mem_cons_of_mem x ha))]

/-! ## Claims -/

/-- C4: immediately after `handleToggleSubtask`, every todo in the store
whose id matches the targeted todo id and that has at least one subtask has
its `completed` flag equal to the conjunction of all of its subtask
`completed` flags. -/
theorem toggleSubtask_parent_invariant (s : AppState) (tid sid : String) :
    ∀ td ∈ (handleToggleSubtask tid sid s).todos, td.id = tid → td.subtasks ≠ [] →
      td.completed = td.subtasks.all (fun st => st.completed) := by
  intro td htd hid hne
  simp only [handleToggleSubtask, List.mem_map] at htd
  obtain ⟨t0, ht0, rfl⟩ := htd
  by_cases h : t0.id = tid
  · simp only [toggleSubtaskOne, if_pos h] at hne ⊢
    have hlen : 0 < (t0.subtasks.map (fun st =>
        if st.id = sid then { st with completed := !st.completed } else st)).length :=
      List.length_pos.mpr hne
    simp [hlen]
    intro _
    simpa using hlen
  · simp only [toggleSubtaskOne, if_neg h] at hid
    exact absurd hid h

/-- C4 witness: toggling the one incomplete subtask of task `a` leaves the
parent `completed` equal to the conjunction of the subtask flags. -/
theorem toggleSubtask_parent_invariant_witness :
    Todo.completed
        (toggleSubtaskOne "a" "s2"
          (Todo.mk "a" "T" false false
            [Subtask.mk "s1" "A" true, Subtask.mk "s2" "B" false] false)) =
      List.all
        (Todo.subtasks
          (toggleSubtaskOne "a" "s2"
            (Todo.mk "a" "T" false false
              [Subtask.mk "s1" "A" true, Subtask.mk "s2" "B" false] false)))
        (fun st => st.completed) :=
  toggleSubtask_parent_invariant
    (AppState.mk
      [Todo.mk "a" "T" false false
        [Subtask.mk "s1" "A" true, Subtask.mk "s2" "B" false] false] "" none)
    "a" "s2"
    (toggleSubtaskOne "a" "s2"
      (Todo.mk "a" "T" false false
        [Subtask.mk "s1" "A" true, Subtask.mk "s2" "B" false] false))
    (by decide) (by decide) (by decide)

/-- C5: for a task present in the store, `handleToggleTodo` on its id puts
`toggleTodoOne id t` in the store; if the flip lands on `completed = true`
every subtask is completed afterwards, and if it lands on
`completed = false` the subtasks are left exactly as they were. -/
theorem toggleTodo_propagation (s : AppState) (id : String) (t : Todo)
    (ht : t ∈ s.todos) (hid : t.id = id) :
    toggleTodoOne id t ∈ (handleToggleTodo id s).todos ∧
    ((toggleTodoOne id t).completed = true →
      ∀ st ∈ (toggleTodoOne id t).subtasks, st.completed = true) ∧
    ((toggleTodoOne id t).completed = false →
      (toggleTodoOne id t).subtasks = t.subtasks) := by
  refine ⟨List.mem_map_of_mem _ ht, ?_, ?_⟩
  · intro hcomp st hst
    simp only [toggleTodoOne, if_pos hid] at hcomp hst
    cases hc : t.completed
    · simp only [hc, Bool.not_false, if_pos] at hst
      simp only [List.mem_map] at hst
      obtain ⟨st0, _, rfl⟩ := hst
      rfl
    · simp [hc] at hcomp
  · intro hcomp
    simp only [toggleTodoOne, if_pos hid] at hcomp ⊢
    cases hc : t.completed
    · simp [hc] at hcomp
    · simp [hc]

/-- C5 witness: toggling incomplete task `a` (one incomplete subtask) to
completed marks the subtask completed. -/
theorem toggleTodo_propagation_witness :
    toggleTodoOne "a" (Todo.mk "a" "T" false false [Subtask.mk "s1" "X" false] false) ∈
      (handleToggleTodo "a"
        (AppState.mk [Todo.mk "a" "T" false false [Subtask.mk "s1" "X" false] false]
          "" none)).todos :=
  (toggleTodo_propagation
    (AppState.mk [Todo.mk "a" "T" false false [Subtask.mk "s1" "X" false] false] "" none)
    "a" (Todo.mk "a" "T" false false [Subtask.mk "s1" "X" false] false)
    (by decide) (by decide)).1

/-- C10 (implicit): `handleToggleSubtask` with a subtask id that belongs to
no subtask of the matching task leaves the subtasks unchanged but still
recomputes the parent `completed` flag as
`(all subtasks completed) && (subtasks non-empty)`; in particular, on a
completed task with zero subtasks it resets `completed` to `false`. -/
theorem toggleSubtask_missing_subtask (s : AppState) (tid sid : String) (t : Todo)
    (ht : t ∈ s.todos) (hid : t.id = tid)
    (hsub : ∀ st ∈ t.subtasks, ¬(st.id = sid)) :
    toggleSubtaskOne tid sid t ∈ (handleToggleSubtask tid sid s).todos ∧
    (toggleSubtaskOne tid sid t).subtasks = t.subtasks ∧
    (toggleSubtaskOne tid sid t).completed =
      (t.subtasks.all (fun st => st.completed) && decide (0 < t.subtasks.length)) ∧
    (t.subtasks = [] → t.completed = true →
      (toggleSubtaskOne tid sid t).completed = false) := by
  have hmap : t.subtasks.map (fun st =>
      if st.id = sid then { st with completed := !st.completed } else st) = t.subtasks :=
    map_eq_self_of_mem (fun st hst => if_neg (hsub st hst))
  refine ⟨List.mem_map_of_mem _ ht, ?_, ?_, ?_⟩
  · simp [toggleSubtaskOne, if_pos hid, hmap]
  · simp [toggleSubtaskOne, if_pos hid, hmap]
  · intro hempty _
    simp [toggleSubtaskOne, if_pos hid, hmap, hempty]

/-- C10 witness: on the completed task `a` with zero subtasks, a toggle
with an unknown subtask id resets the parent `completed` flag to `false`. -/
theorem toggleSubtask_missing_subtask_witness :
    Todo.completed (toggleSubtaskOne "a" "x" (Todo.mk "a" "T" true false [] false)) = false :=
  (toggleSubtask_missing_subtask
    (AppState.mk [Todo.mk "a" "T" true false [] false] "" none)
    "a" "x" (Todo.mk "a" "T" true false [] false)
    (by decide) (by decide) (by decide)).2.2.2 rfl rfl

/-- C8: `handleClearCompleted` removes exactly the completed tasks: every
retained task is not completed, every non-completed task is retained
(unmodified, being the very same element), and the retained tasks form a
sublist of the original list, so their relative order is unchanged. -/
theorem clearCompleted_spec (s : AppState) :
    (∀ t ∈ (handleClearCompleted s).todos, t.completed = false) ∧
    (∀ t ∈ s.todos, t.completed = false → t ∈ (handleClearCompleted s).todos) ∧
    List.Sublist (handleClearCompleted s).todos s.todos := by
  refine ⟨?_, ?_, ?_⟩
  · intro t ht
    simp only [handleClearCompleted, List.mem_filter] at ht
    simpa using ht.2
  · intro t ht hc
    simp only [handleClearCompleted, List.mem_filter]
    exact ⟨ht, by simp [hc]⟩
  · exact List.filter_sublist _

/-- C8 witness: clearing a two-task store with one completed task retains
the active task. -/
theorem clearCompleted_spec_witness :
    Todo.mk "b" "B" false false [] false ∈
      (handleClearCompleted
        (AppState.mk [Todo.mk "a" "A" true false [] false,
                      Todo.mk "b" "B" false false [] false] "" none)).todos :=
  (clearCompleted_spec
    (AppState.mk [Todo.mk "a" "A" true false [] false,
                  Todo.mk "b" "B" false false [] false] "" none)).2.1
    (Todo.mk "b" "B" false false [] false) (by decide) (by decide)

/-- C9: the `todos` initializer fails soft: no stored snapshot yields the
empty collection, and a stored blob on which `JSON.parse` throws (modelled
by `parse blob = none`) also yields the empty collection instead of a fatal
error. -/
theorem restore_failsoft (parse : String → Option (List Todo)) (blob : String) :
    initialTodos none parse = [] ∧
    (parse blob = none → initialTodos (some blob) parse = []) := by
  refine ⟨rfl, ?_⟩
  intro h
  by_cases hb : blob = "" <;> simp [initialTodos, hb, h]

/-- C9 witness: restoring from an unparseable blob yields the empty task
collection. -/
theorem restore_failsoft_witness :
    initialTodos (some "not json") (fun _ => none) = [] :=
  (restore_failsoft (fun _ => none) "not json").2 rfl

/-- C1 counterexample: task `a` is already generating (`Pending` in the
`Pending`), yet invoking the handler again still reaches the service call
(the issued-request flag of `generateBegin` is `true`) — there is no
`AlreadyPending` failure path and the request is double-issued. -/
theorem generateBegin_pending_counterexample :
    (∃ t ∈ (AppState.mk [Todo.mk "a" "T" false false [] true] "" none).todos,
      t.id = "a" ∧ t.isGenerating = true) ∧
    (generateBegin "a" (AppState.mk [Todo.mk "a" "T" false false [] true] "" none)).2 =
      true := by
  decide

/-- C1 amended: `handleGenerateSubtasks` has no pending guard: on any
state, including one where the targeted task is already generating, the
invocation issues a service request unconditionally, clears the error
banner, and (re)sets the `isGenerating` flag of the matching task; no
`AlreadyPending` failure exists (only the UI disables the button while
`isGenerating`). -/
theorem generateBegin_no_guard (id : String) (s : AppState) (t : Todo)
    (ht : t ∈ s.todos) (hid : t.id = id) :
    (generateBegin id s).2 = true ∧
    (generateBegin id s).1.error = none ∧
    { t with isGenerating := true } ∈ (generateBegin id s).1.todos := by
  refine ⟨rfl, rfl, ?_⟩
  have h := List.mem_map_of_mem
    (fun t : Todo => if t.id = id then { t with isGenerating := true } else t) ht
  simp only [if_pos hid] at h
  exact h

/-- C1 amended witness: invoking the handler on the already-generating task
`a` still issues a request. -/
theorem generateBegin_no_guard_witness :
    (generateBegin "a" (AppState.mk [Todo.mk "a" "T" false false [] true] "" none)).2 =
      true :=
  (generateBegin_no_guard "a"
    (AppState.mk [Todo.mk "a" "T" false false [] true] "" none)
    (Todo.mk "a" "T" false false [] true) (by decide) (by decide)).1

/-- C2 counterexample: with an API key present, an empty response text is
returned as `success []`, and running the full handler with that outcome
leaves task `a` with zero subtasks and `isGenerating = false` — exactly the
state the claim says can never result from a successful decomposition. -/
theorem emptySuccess_counterexample :
    generateSubtasks "key" "Plan trip" (Except.ok (some "")) (fun _ => none) =
      ServiceOutcome.success [] ∧
    (∃ t ∈ (runGenerateSubtasks "a"
        (generateSubtasks "key" "Plan trip" (Except.ok (some "")) (fun _ => none)) []
        (AppState.mk [Todo.mk "a" "Plan trip" false false [] false] "" none)).todos,
      t.id = "a" ∧ t.subtasks = [] ∧ t.isGenerating = false ∧ t.isExpanded = true) := by
  decide

/-- C2 amended: an empty or missing response text is treated as a success
carrying the empty sequence, not as a failure; applying that success to the
store leaves every task matching the targeted id with zero subtasks, not
generating, and expanded — indistinguishable in `subtasks`/`isGenerating`
from an un-decomposed idle task. -/
theorem emptySuccess_applied (apiKey taskText : String)
    (parse : String → Option Json) (s : AppState) (id : String)
    (hk : ¬(apiKey = "")) :
    generateSubtasks apiKey taskText (Except.ok (some "")) parse =
      ServiceOutcome.success [] ∧
    generateSubtasks apiKey taskText (Except.ok none) parse =
      ServiceOutcome.success [] ∧
    ∀ t ∈ (generateSuccess id [] s).todos, t.id = id →
      t.subtasks = [] ∧ t.isGenerating = false ∧ t.isExpanded = true := by
  refine ⟨by simp [generateSubtasks, hk], by simp [generateSubtasks, hk], ?_⟩
  intro t ht hid
  simp only [generateSuccess, List.mem_map] at ht
  obtain ⟨t0, ht0, rfl⟩ := ht
  by_cases h : t0.id = id
  · simp [if_pos h]
  · simp only [if_neg h] at hid
    exact absurd hid h

/-- C2 amended witness: the empty-text success applied to task `a`. -/
theorem emptySuccess_applied_witness :
    generateSubtasks "key" "X" (Except.ok (some "")) (fun _ => none) =
      ServiceOutcome.success [] :=
  (emptySuccess_applied "key" "X" (fun _ => none)
    (AppState.mk [] "" none) "a" (by decide)).1

/-- C3 counterexample: task `a` has been deleted (no task in the store has
id `a`), yet resolving its in-flight generation through the failure path
does not leave the state unchanged: it sets the global error banner, so the
stale resolution is surfaced, not silently discarded. -/
theorem staleResolution_counterexample :
    (∀ t ∈ (AppState.mk [Todo.mk "b" "Other" false false [] false] "" none).todos,
      ¬(t.id = "a")) ∧
    (generateFailure "a"
        (AppState.mk [Todo.mk "b" "Other" false false [] false] "" none)).error =
      some "Failed to generate subtasks. Please try again or check your API key." ∧
    ¬(generateFailure "a" (AppState.mk [Todo.mk "b" "Other" false false [] false] "" none) =
        AppState.mk [Todo.mk "b" "Other" false false [] false] "" none) := by
  decide

/-- C3 amended: a resolution keyed to a task id no longer in the store (the
only staleness the code can detect — there are no tokens) leaves the task
list unchanged; the success path leaves the whole state unchanged, while
the failure path still sets the global error banner. -/
theorem resolution_absent_id (s : AppState) (id : String) (subs : List Subtask)
    (h : ∀ t ∈ s.todos, ¬(t.id = id)) :
    generateSuccess id subs s = s ∧
    (generateFailure id s).todos = s.todos ∧
    (generateFailure id s).error =
      some "Failed to generate subtasks. Please try again or check your API key." := by
  have h1 : s.todos.map (fun t =>
      if t.id = id then
        { t with isGenerating := false, isExpanded := true, subtasks := subs }
      else t) = s.todos :=
    map_eq_self_of_mem (fun t ht => if_neg (h t ht))
  have h2 : s.todos.map (fun t =>
      if t.id = id then { t with isGenerating := false } else t) = s.todos :=
    map_eq_self_of_mem (fun t ht => if_neg (h t ht))
  refine ⟨?_, ?_, rfl⟩
  · show AppState.mk _ _ _ = s
    rw [h1]
  · show s.todos.map _ = s.todos
    exact h2

/-- C3 amended witness: a success resolution for the deleted task `a`
leaves the state unchanged. -/
theorem resolution_absent_id_witness :
    generateSuccess "a" []
        (AppState.mk [Todo.mk "b" "Other" false false [] false] "" none) =
      AppState.mk [Todo.mk "b" "Other" false false [] false] "" none :=
  (resolution_absent_id
    (AppState.mk [Todo.mk "b" "Other" false false [] false] "" none)
    "a" [] (by decide)).1

/-- C6 counterexample: toggling the absent id `z` leaves the state (error
banner included) entirely unchanged — the missing target is silently
swallowed, no `NotFound` is surfaced, exactly like delete. -/
theorem toggleTodo_absent_counterexample :
    (∀ t ∈ (AppState.mk [Todo.mk "a" "Task" false false [] false] "" none).todos,
      ¬(t.id = "z")) ∧
    handleToggleTodo "z" (AppState.mk [Todo.mk "a" "Task" false false [] false] "" none) =
      AppState.mk [Todo.mk "a" "Task" false false [] false] "" none := by
  decide

/-- C6 amended: `handleToggleTodo` on an id no task has is a silent
idempotent no-op — the state, error banner included, is unchanged and
nothing is surfaced to the caller. -/
theorem toggleTodo_absent_noop (s : AppState) (id : String)
    (h : ∀ t ∈ s.todos, ¬(t.id = id)) :
    handleToggleTodo id s = s := by
  have hmap : s.todos.map (toggleTodoOne id) = s.todos :=
    map_eq_self_of_mem (fun t ht => by simp [toggleTodoOne, if_neg (h t ht)])
  show AppState.mk _ _ _ = s
  rw [hmap]

/-- C6 amended witness: toggling the absent id `z` is a no-op. -/
theorem toggleTodo_absent_noop_witness :
    handleToggleTodo "z" (AppState.mk [Todo.mk "a" "Task" false false [] false] "" none) =
      AppState.mk [Todo.mk "a" "Task" false false [] false] "" none :=
  toggleTodo_absent_noop
    (AppState.mk [Todo.mk "a" "Task" false false [] false] "" none) "z" (by decide)

/-- C7 counterexample: with whitespace-only input, `handleAddTodo` leaves
the state entirely unchanged (not even the input box is cleared) and no
error of any kind is raised — there is no `InvalidInput` failure, just a
silent early return. -/
theorem addTodo_empty_counterexample :
    handleAddTodo "fresh-id" (AppState.mk [] "   " none) = AppState.mk [] "   " none ∧
    (handleAddTodo "fresh-id" (AppState.mk [] "   " none)).error = none := by
  decide

/-- C7 amended: when the trimmed input is empty the add is rejected as a
silent no-op; otherwise exactly one new task — carrying the id supplied by
the UUID generator (uniqueness is a contract of the generator, the code does
not check it), the trimmed text, `completed = false`, no subtasks, not
generating — is inserted at the front, the previously existing tasks are
kept unchanged in their previous order as the tail, and the input is
cleared. -/
theorem addTodo_spec (freshId : String) (s : AppState)
    (h : ¬(jsTrim s.inputText = "")) :
    (handleAddTodo freshId s).todos.head? =
      some (Todo.mk freshId (jsTrim s.inputText) false false [] false) ∧
    (handleAddTodo freshId s).todos.tail = s.todos ∧
    (handleAddTodo freshId s).inputText = "" ∧
    (handleAddTodo freshId s).error = s.error := by
  unfold handleAddTodo
  rw [if_neg h]
  exact ⟨rfl, rfl, rfl, rfl⟩

/-- C7 amended witness: adding from the input `" hi "` creates the trimmed
task at the front. -/
theorem addTodo_spec_witness :
    (handleAddTodo "id1" (AppState.mk [] " hi " none)).todos.head? =
      some (Todo.mk "id1" (jsTrim " hi ") false false [] false) :=
  (addTodo_spec "id1" (AppState.mk [] " hi " none) (by decide)).1
